import Mathlib

/-
Verification development for the xiao-adb repository.

The repository has two independent programs:
  * src/droidrun/test_websocket.py : a WebSocket event listener with an
    ADB port-forward setup step, a PING/PONG liveness check and an
    unbounded receive loop printing decoded JSON events;
  * src/vision_client.py : an HTTP client that fetches a screenshot
    (GET base_url/screenshot) and uploads it with a question to a vision
    service (multipart POST).

The embedding below is shallow: network and process effects are inputs
(outcome values standing for what the peer or the OS did), and each
Python function becomes a pure Lean function from those inputs to the
observable results (printed lines, return values, exit codes).
-/

/-- JSON values as produced by the json.loads call in the Python source.
Objects are association lists in insertion order, which is exactly the
iteration order of a Python dict. Numbers are modelled as integers; no
claim depends on float values. -/
inductive Json where
  | null : Json
  | bool (b : Bool) : Json
  | num (n : Int) : Json
  | str (s : String) : Json
  | arr (xs : List Json) : Json
  | obj (fields : List (String × Json)) : Json

/-- First-match lookup in an object field list. Models the Python dict
access; json.loads produces dicts with unique keys, so first match is
the dict lookup. -/
def lookupKey : List (String × Json) → String → Option Json
  | [], _ => none
  | (k, v) :: rest, key => if k == key then some v else lookupKey rest key

/-- True exactly when the value is a JSON object, mirroring the Python
isinstance check against dict. -/
def Json.isObj : Json → Bool
  | .obj _ => true
  | _ => false

/-- Models the Python comparison data.get left-parenthesis "type"
right-parenthesis == "PONG" on a dict: dict.get with no default returns
None for an absent key, and == "PONG" holds only for the string value. -/
def isPong (fields : List (String × Json)) : Bool :=
  match lookupKey fields "type" with
  | some (.str s) => s == "PONG"
  | _ => false

/-- Exceptions that can escape the inner parts of test_connection and be
caught by its outer generic handler. -/
inductive PyError where
  | jsonDecodeError : PyError
  | attributeError (v : Json) : PyError
  | other (msg : String) : PyError

/-- One printed line (or send action) of the listener program, in program
order. Fixed-text print calls are carried as info with an abbreviated
text; prints interpolating a runtime value get a dedicated constructor so
the value is kept. The four banner print calls before the receive loop are
collapsed into one info line. -/
inductive Output where
  | info (s : String) : Output
  | connectingTo (port : Int) : Output
  | sent (v : Json) : Output
  | received (text : String) : Output
  | pingPassed : Output
  | pingFailed : Output
  | header (etype ts : Json) : Output
  | kv (key : String) (value : Json) : Output
  | scalarPayload (p : Json) : Output
  | blank : Output
  | rawEvent (text : String) : Output
  | connectionRefused : Output
  | errorCaught (e : PyError) : Output

/-- An inbound WebSocket text frame: the raw text together with the
outcome of json.loads on it (none when json.loads raises
JSONDecodeError). The decode outcome is part of the input because the
JSON parser itself is library code, not code of this repository. -/
structure InFrame where
  text : String
  decoded : Option Json

/-- How the modelled receive loop left off: still listening after the
given finite prefix of frames, or terminated by the AttributeError that
event.get raises on a JSON value that is not an object. -/
inductive LoopExit where
  | stillListening : LoopExit
  | attributeError (v : Json) : LoopExit

/-- The PING event sent on connect: json.dumps of the Python dict
with type PING and timestamp 123456789. -/
def ping_event : Json :=
  .obj [("type", .str "PING"), ("timestamp", .num 123456789)]

/-- Printing of one successfully decoded JSON object event inside the
receive loop of test_connection: event.get of type (default UNKNOWN),
timestamp (default empty string) and payload (default empty dict), the
header line, then one line per payload entry when the payload is a dict,
else one scalar line, then a blank line. -/
def processEvent (fields : List (String × Json)) : List Output :=
  let event_type := (lookupKey fields "type").getD (.str "UNKNOWN")
  let timestamp := (lookupKey fields "timestamp").getD (.str "")
  let payload := (lookupKey fields "payload").getD (.obj [])
  [Output.header event_type timestamp] ++
  (match payload with
   | .obj pm => pm.map (fun p => Output.kv p.1 p.2)
   | p => [Output.scalarPayload p]) ++
  [Output.blank]

/-- The unbounded receive loop of test_connection, run on a finite prefix
of the inbound frames. A frame whose text does not decode prints the raw
text and continues; a frame decoding to a JSON object is processed and
the loop continues; a frame decoding to any other JSON value makes
event.get raise AttributeError, which the except clause for
JSONDecodeError does not catch, so the loop stops there and the remaining
frames are never read. -/
def receiveLoop : List InFrame → List Output × LoopExit
  | [] => ([], LoopExit.stillListening)
  | f :: rest =>
    match f.decoded with
    | none =>
      let r := receiveLoop rest
      (Output.rawEvent f.text :: r.1, r.2)
    | some (Json.obj fields) =>
      let r := receiveLoop rest
      (processEvent fields ++ r.1, r.2)
    | some v => ([], LoopExit.attributeError v)

/-- Outcome of the websockets.connect call and the session it opens:
connection refused, some other connect-time exception, or a session
delivering a first reply (to the PING) followed by further frames. -/
inductive ConnectResult where
  | refused : ConnectResult
  | failed (msg : String) : ConnectResult
  | connected (firstReply : InFrame) (frames : List InFrame) : ConnectResult

/-- Observable result of test_connection: the printed lines in order, and
whether the receive loop was entered. -/
structure SessionResult where
  outputs : List Output
  loopEntered : Bool

/-- The prints of test_connection from the connect up to and including
the Received line for the first reply, before json.loads is applied to
it. -/
def sessionPre (port : Int) (first : InFrame) : List Output :=
  [Output.connectingTo port, Output.info "Connected successfully",
   Output.info "Sending PING", Output.sent ping_event,
   Output.info "Waiting for response", Output.received first.text]

/-- The async test_connection function. On a connected session it sends
the single PING, prints the first reply, applies json.loads to it; a
decode failure there is caught only by the outer generic handler (the
session ends, the loop is never entered); a JSON object reply is checked
for type PONG (log only) and the receive loop is entered; any other JSON
value raises AttributeError at data.get, again ending the session via the
outer handler. An AttributeError escaping the receive loop is also caught
by the outer handler. -/
def test_connection (port : Int) (conn : ConnectResult) : SessionResult :=
  match conn with
  | .refused => ⟨[Output.connectingTo port, Output.connectionRefused], false⟩
  | .failed m => ⟨[Output.connectingTo port, Output.errorCaught (.other m)], false⟩
  | .connected first frames =>
    match first.decoded with
    | none =>
      ⟨sessionPre port first ++ [Output.errorCaught PyError.jsonDecodeError], false⟩
    | some (Json.obj fields) =>
      let verdict := if isPong fields then Output.pingPassed else Output.pingFailed
      let r := receiveLoop frames
      let tail :=
        match r.2 with
        | LoopExit.stillListening => []
        | LoopExit.attributeError v => [Output.errorCaught (PyError.attributeError v)]
      ⟨sessionPre port first ++ [verdict, Output.info "Listening for events"] ++ r.1 ++ tail,
       true⟩
    | some v =>
      ⟨sessionPre port first ++ [Output.errorCaught (PyError.attributeError v)], false⟩

/-- Outcome of the subprocess.run call on adb forward: the process
completed with a return code and captured stderr, adb was not on PATH
(FileNotFoundError), or some other exception. -/
inductive AdbOutcome where
  | completed (returncode : Int) (stderrText : String) : AdbOutcome
  | fileNotFound : AdbOutcome
  | otherError (msg : String) : AdbOutcome

/-- setup_adb_forward from test_websocket.py: returns True exactly when
the adb process ran and exited with code 0; FileNotFoundError and every
other exception are caught and reported, returning False. The function
is total, so no exception propagates to the caller. -/
def setup_adb_forward (o : AdbOutcome) : Bool :=
  match o with
  | .completed rc _ => rc == 0
  | .fileNotFound => false
  | .otherError _ => false

/-- Python int applied to a string: model of the digit core after the
optional sign, including the underscore-separator rule (underscores only
between digits, never doubled, never leading or trailing). -/
def noDoubleUS : List Char → Bool
  | [] => true
  | '_' :: '_' :: _ => false
  | _ :: rest => noDoubleUS rest

/-- Numeric value of a decimal digit character. -/
def digitVal (c : Char) : Nat := c.toNat - 48

/-- Validity of the digit core for Python int: nonempty, starts and ends
with a digit, only digits and underscores, no doubled underscore. -/
def pyDigitsOk (cs : List Char) : Bool :=
  (match cs with | [] => false | c :: _ => c.isDigit) &&
  (match cs.getLast? with | some c => c.isDigit | none => false) &&
  cs.all (fun c => c.isDigit || c == '_') &&
  noDoubleUS cs

/-- Value of a valid digit core, ignoring underscores. -/
def pyIntCore (cs : List Char) : Option Nat :=
  if pyDigitsOk cs then
    some ((cs.filter Char.isDigit).foldl (fun a c => 10 * a + digitVal c) 0)
  else none

/-- ASCII whitespace stripped by Python str.strip inside int. -/
def isSpaceChar (c : Char) : Bool :=
  c == ' ' || c == '\t' || c == '\n' || c == '\r' || c == '\x0b' || c == '\x0c'

/-- Strip leading and trailing whitespace characters. -/
def trimChars (cs : List Char) : List Char :=
  ((cs.dropWhile isSpaceChar).reverse.dropWhile isSpaceChar).reverse

/-- Python int on a string argument: strip whitespace, optional sign,
then the digit core; none models the ValueError raised on any other
input (such as a non-numeric argument). -/
def pythonInt? (s : String) : Option Int :=
  match trimChars s.data with
  | '-' :: rest => (pyIntCore rest).map (fun n => -(n : Int))
  | '+' :: rest => (pyIntCore rest).map (fun n => (n : Int))
  | cs => (pyIntCore cs).map (fun n => (n : Int))

/-- Default port of the listener program. -/
def DEFAULT_PORT : Int := 8081

/-- Outcome of the asyncio.run call in main: test_connection ran to
completion with the given connection outcome, or a KeyboardInterrupt
(operator interrupt) was raised during it and caught by main. -/
inductive RunOutcome where
  | completed (conn : ConnectResult) : RunOutcome
  | keyboardInterrupt : RunOutcome

/-- Observable result of the listener main: whether usage text was
printed, whether and with what result setup_adb_forward was invoked,
whether the WebSocket connection was attempted, the session trace when
asyncio.run completed, whether a KeyboardInterrupt was caught, and the
process exit status. sys.exit is called only on the malformed-port path
(with status 1); every other path falls off the end of main, exiting 0. -/
structure MainResult where
  usagePrinted : Bool
  adbResult : Option Bool
  connectionAttempted : Bool
  session : Option SessionResult
  interrupted : Bool
  exitCode : Nat

namespace Listener

/-- The listener main: parse the optional port argument with Python int
(ValueError prints usage and exits 1 before anything else runs), invoke
setup_adb_forward, proceed to the WebSocket connection regardless of its
result, and catch KeyboardInterrupt around asyncio.run. -/
def main (argv1 : Option String) (adb : AdbOutcome) (run : RunOutcome) : MainResult :=
  let go : Int → MainResult := fun port =>
    let ok := setup_adb_forward adb
    match run with
    | .completed conn =>
      ⟨false, some ok, true, some (test_connection port conn), false, 0⟩
    | .keyboardInterrupt => ⟨false, some ok, true, none, true, 0⟩
  match argv1 with
  | none => go DEFAULT_PORT
  | some s =>
    match pythonInt? s with
    | none => ⟨true, none, false, none, false, 1⟩
    | some p => go p

end Listener

/-- Configuration of the vision client (constructor arguments). -/
structure VisionClient where
  screenshot_base_url : String
  vision_explain_url : String
  auth_token : String

/-- Outcome of an HTTP request made through the requests library:
a response with a status code and a byte body, a transport error
(ConnectionError and kin), or a Timeout. All three exception cases are
subclasses of requests.exceptions.RequestException. Bytes are modelled
as lists of natural numbers. -/
inductive HttpOutcome where
  | response (status : Nat) (body : List Nat) : HttpOutcome
  | transportError (msg : String) : HttpOutcome
  | timeoutError (msg : String) : HttpOutcome

/-- Response.raise_for_status of the requests library raises HTTPError
exactly for client-error and server-error status codes, 400 to 599;
every other status (including 1xx, 2xx, 3xx) returns normally. -/
def raisesForStatus (status : Nat) : Bool :=
  decide (400 ≤ status ∧ status < 600)

/-- The GET request issued by get_screenshot: url, bearer token and the
fixed 15 second timeout. -/
structure GetRequest where
  url : String
  bearerToken : String
  timeoutSeconds : Nat

/-- Observable result of get_screenshot: the request it issues, the
returned value (bytes or the Python None), and whether the failure
message was printed. -/
structure FetchResult where
  request : GetRequest
  result : Option (List Nat)
  errorLogged : Bool

/-- VisionClient.get_screenshot: GET base url slash screenshot with a
bearer token header and timeout 15; raise_for_status inside the try
block converts status 400 to 599 into HTTPError; every
RequestException (transport error, timeout, HTTPError) is caught, the
failure is printed, and None is returned. The function is total, so no
exception propagates to the caller. -/
def VisionClient.get_screenshot (c : VisionClient) (o : HttpOutcome) : FetchResult :=
  let req : GetRequest := ⟨c.screenshot_base_url ++ "/screenshot", c.auth_token, 15⟩
  match o with
  | .response status body =>
    if raisesForStatus status then ⟨req, none, true⟩ else ⟨req, some body, false⟩
  | .transportError _ => ⟨req, none, true⟩
  | .timeoutError _ => ⟨req, none, true⟩

/-- The multipart POST request issued by upload_image_for_explanation:
url, bearer token, the single file part (field name, filename, content
type, bytes), the question text field, and the fixed 30 second
timeout. -/
structure MultipartRequest where
  url : String
  bearerToken : String
  filePartName : String
  fileName : String
  fileContentType : String
  fileBytes : List Nat
  questionField : String
  timeoutSeconds : Nat

/-- Outcome of the POST as seen by the client code: a response with a
status code and the outcome of response.json on its body (none when the
body is not valid JSON), a transport error, or a timeout. -/
inductive PostOutcome where
  | response (status : Nat) (jsonBody : Option Json) : PostOutcome
  | transportError (msg : String) : PostOutcome
  | timeoutError (msg : String) : PostOutcome

/-- Observable result of upload_image_for_explanation: the request, if
one was issued at all (none on the empty-image early return), the
returned value, and whether a failure message was printed. -/
structure UploadResult where
  request : Option MultipartRequest
  result : Option Json
  errorLogged : Bool

/-- VisionClient.upload_image_for_explanation: empty image data returns
None before any request is built or sent. Otherwise one multipart POST
is issued with the file part (name file, filename screenshot.jpg,
content type image slash jpeg), the question field, the bearer header
and timeout 30. raise_for_status converts status 400 to 599 into
HTTPError; response.json on a non-JSON body raises the requests
JSONDecodeError, which (requests 2.27 and later) is a RequestException;
every RequestException is caught, printed, and None is returned. -/
def VisionClient.upload_image_for_explanation (c : VisionClient)
    (image_data : List Nat) (question : String) (o : PostOutcome) : UploadResult :=
  if image_data = [] then ⟨none, none, false⟩
  else
    let req : MultipartRequest :=
      ⟨c.vision_explain_url, c.auth_token, "file", "screenshot.jpg", "image/jpeg",
       image_data, question, 30⟩
    match o with
    | .response status jsonBody =>
      if raisesForStatus status then ⟨some req, none, true⟩
      else
        match jsonBody with
        | some j => ⟨some req, some j, false⟩
        | none => ⟨some req, none, true⟩
    | .transportError _ => ⟨some req, none, true⟩
    | .timeoutError _ => ⟨some req, none, true⟩

/-- Recognizes a send action. -/
def isSentO (o : Output) : Bool :=
  match o with | Output.sent _ => true | _ => false

/-- Recognizes a Received line. -/
def isReceivedO (o : Output) : Bool :=
  match o with | Output.received _ => true | _ => false

/-- Recognizes the passed-liveness-check log line. -/
def isPingPassedO (o : Output) : Bool :=
  match o with | Output.pingPassed => true | _ => false

/-- Recognizes the failed-liveness-check log line. -/
def isPingFailedO (o : Output) : Bool :=
  match o with | Output.pingFailed => true | _ => false

/-- Recognizes the raw-event fallback line. -/
def isRawEventO (o : Output) : Bool :=
  match o with | Output.rawEvent _ => true | _ => false

/-- Counts the send actions in an output trace. -/
def countSent (l : List Output) : Nat := l.countP isSentO

/-- Counts the Received lines in an output trace. -/
def countReceived (l : List Output) : Nat := l.countP isReceivedO

/-- Counts the passed-liveness-check log lines in an output trace. -/
def countPingPassed (l : List Output) : Nat := l.countP isPingPassedO

/-- Counts the failed-liveness-check log lines in an output trace. -/
def countPingFailed (l : List Output) : Nat := l.countP isPingFailedO

/-- Counts the raw-event fallback lines in an output trace. -/
def countRawEvent (l : List Output) : Nat := l.countP isRawEventO

/-- Recognizes the output shapes the receive loop body can emit. -/
def loopOnly (o : Output) : Bool :=
  match o with
  | Output.rawEvent _ => true
  | Output.header _ _ => true
  | Output.kv _ _ => true
  | Output.scalarPayload _ => true
  | Output.blank => true
  | _ => false

/-- Every line printed by processEvent has a loop-body shape. -/
lemma mem_processEvent_shape (fields : List (String × Json)) :
    ∀ o ∈ processEvent fields, loopOnly o = true := by
  intro o ho
  unfold processEvent at ho
  rcases List.mem_append.mp ho with h1 | h2
  · rcases List.mem_append.mp h1 with ha | hb
    · rcases List.mem_singleton.mp ha with rfl
      rfl
    · cases hp : (lookupKey fields "payload").getD (Json.obj []) <;>
        rw [hp] at hb <;>
        first
          | (rcases List.mem_singleton.mp hb with rfl; rfl)
          | (rcases List.mem_map.mp hb with ⟨q, _, rfl⟩; rfl)
  · rcases List.mem_singleton.mp h2 with rfl
    rfl

/-- Every line printed inside the receive loop has a loop-body shape. -/
lemma mem_receiveLoop_shape (frames : List InFrame) :
    ∀ o ∈ (receiveLoop frames).1, loopOnly o = true := by
  induction frames with
  | nil => intro o ho; simp [receiveLoop] at ho
  | cons f rest ih =>
    intro o ho
    cases h : f.decoded with
    | none =>
      rw [receiveLoop] at ho
      simp only [h] at ho
      rcases List.mem_cons.mp ho with rfl | hm
      · rfl
      · exact ih o hm
    | some v =>
      rw [receiveLoop] at ho
      cases v <;> simp only [h] at ho
      case obj fields =>
        rcases List.mem_append.mp ho with hp | hm
        · exact mem_processEvent_shape fields o hp
        · exact ih o hm
      all_goals simp at ho

/-- A predicate false on all loop-body shapes counts zero inside the
receive loop output. -/
lemma countP_receiveLoop_zero (p : Output → Bool)
    (hp : ∀ o, loopOnly o = true → p o = false) (frames : List InFrame) :
    List.countP p (receiveLoop frames).1 = 0 :=
  List.countP_eq_zero.mpr fun a ha => by
    rw [hp a (mem_receiveLoop_shape frames a ha)]; simp

/-- The receive loop never sends. -/
lemma countSent_receiveLoop (frames : List InFrame) :
    List.countP isSentO (receiveLoop frames).1 = 0 :=
  countP_receiveLoop_zero _ (fun o h => by cases o <;> first | rfl | exact absurd h (by simp [loopOnly])) frames

/-- The receive loop never prints a Received line. -/
lemma countReceived_receiveLoop (frames : List InFrame) :
    List.countP isReceivedO (receiveLoop frames).1 = 0 :=
  countP_receiveLoop_zero _ (fun o h => by cases o <;> first | rfl | exact absurd h (by simp [loopOnly])) frames

/-- The receive loop never logs the liveness check as passed. -/
lemma countPingPassed_receiveLoop (frames : List InFrame) :
    List.countP isPingPassedO (receiveLoop frames).1 = 0 :=
  countP_receiveLoop_zero _ (fun o h => by cases o <;> first | rfl | exact absurd h (by simp [loopOnly])) frames

/-- The receive loop never logs the liveness check as failed. -/
lemma countPingFailed_receiveLoop (frames : List InFrame) :
    List.countP isPingFailedO (receiveLoop frames).1 = 0 :=
  countP_receiveLoop_zero _ (fun o h => by cases o <;> first | rfl | exact absurd h (by simp [loopOnly])) frames

/-- C3: a frame whose text is not valid JSON makes the loop print the raw
frame text and continue with the remaining frames unchanged; the decode
failure never terminates the loop or the session. -/
theorem c3_nonjson_frame_prints_raw_and_continues (text : String) (rest : List InFrame) :
    receiveLoop (⟨text, none⟩ :: rest) =
      (Output.rawEvent text :: (receiveLoop rest).1, (receiveLoop rest).2) := by
  rw [receiveLoop]

/-- C2: a frame decoding to a JSON object with a mapping payload prints
the header line and then each payload key and value exactly once, in the
iteration order of the mapping, followed by a blank line, and the loop
continues; a payload that is present but not a mapping is printed as one
scalar line instead. -/
theorem c2_payload_entries_printed_once_in_order (text : String)
    (fields : List (String × Json)) (rest : List InFrame) :
    (∀ pm, lookupKey fields "payload" = some (Json.obj pm) →
      receiveLoop (⟨text, some (Json.obj fields)⟩ :: rest) =
        (([Output.header ((lookupKey fields "type").getD (Json.str "UNKNOWN"))
             ((lookupKey fields "timestamp").getD (Json.str ""))] ++
          pm.map (fun p => Output.kv p.1 p.2) ++ [Output.blank]) ++ (receiveLoop rest).1,
         (receiveLoop rest).2)) ∧
    (∀ p, lookupKey fields "payload" = some p → p.isObj = false →
      receiveLoop (⟨text, some (Json.obj fields)⟩ :: rest) =
        (([Output.header ((lookupKey fields "type").getD (Json.str "UNKNOWN"))
             ((lookupKey fields "timestamp").getD (Json.str ""))] ++
          [Output.scalarPayload p] ++ [Output.blank]) ++ (receiveLoop rest).1,
         (receiveLoop rest).2)) := by
  constructor
  · intro pm hp
    rw [receiveLoop]
    simp only [processEvent, hp, Option.getD_some]
  · intro p hp hobj
    rw [receiveLoop]
    simp only [processEvent, hp, Option.getD_some]
    cases p <;> simp_all [Json.isObj]

/-- Witness for c2: a concrete notification event with a two-entry
payload prints exactly those two entries, in order. -/
theorem c2_witness :
    receiveLoop [⟨"t", some (Json.obj
        [("type", Json.str "NOTIF"), ("timestamp", Json.num 5),
         ("payload", Json.obj [("a", Json.num 1), ("b", Json.str "x")])])⟩] =
      (([Output.header (Json.str "NOTIF") (Json.num 5)] ++
        [Output.kv "a" (Json.num 1), Output.kv "b" (Json.str "x")] ++ [Output.blank]) ++ [],
       LoopExit.stillListening) := by
  have h := (c2_payload_entries_printed_once_in_order "t"
      [("type", Json.str "NOTIF"), ("timestamp", Json.num 5),
       ("payload", Json.obj [("a", Json.num 1), ("b", Json.str "x")])] []).1
      [("a", Json.num 1), ("b", Json.str "x")] rfl
  simpa using h

/-- C10: a frame decoding to a JSON value that is not an object raises
AttributeError at the event.get call, which the JSONDecodeError handler
does not catch: the loop stops at that frame (nothing is printed for it,
no raw-event fallback, remaining frames are never read) and the session
ends with the error reported by the outer generic handler. -/
theorem c10_nonobject_json_terminates_session (text : String) (v : Json)
    (hv : v.isObj = false) (rest : List InFrame) (port : Int) (ftext : String)
    (ffields : List (String × Json)) :
    receiveLoop (⟨text, some v⟩ :: rest) = ([], LoopExit.attributeError v) ∧
    countRawEvent (receiveLoop (⟨text, some v⟩ :: rest)).1 = 0 ∧
    test_connection port
        (ConnectResult.connected ⟨ftext, some (Json.obj ffields)⟩ (⟨text, some v⟩ :: rest)) =
      ⟨sessionPre port ⟨ftext, some (Json.obj ffields)⟩ ++
         [(if isPong ffields then Output.pingPassed else Output.pingFailed),
          Output.info "Listening for events"] ++
         [Output.errorCaught (PyError.attributeError v)], true⟩ := by
  have hloop : receiveLoop (⟨text, some v⟩ :: rest) = ([], LoopExit.attributeError v) := by
    rw [receiveLoop]
    cases v <;> simp_all [Json.isObj]
  refine ⟨hloop, ?_, ?_⟩
  · rw [hloop]; rfl
  · rw [test_connection]
    simp only [hloop, List.append_nil]

/-- Witness for c10: the concrete frame with text 5 decoding to the JSON
number 5, after a well-formed PONG reply, stops the loop and ends the
session through the outer handler. -/
theorem c10_witness :
    receiveLoop [⟨"5", some (Json.num 5)⟩] = ([], LoopExit.attributeError (Json.num 5)) :=
  (c10_nonobject_json_terminates_session "5" (Json.num 5) rfl [] 8081 "pong"
    [("type", Json.str "PONG")]).1

/-- Counterexample to C1 as stated: a first reply that is not valid JSON
is neither logged as a failed liveness check nor followed by the receive
loop; json.loads raises, the outer handler reports the error and the
session ends. -/
theorem c1_counterexample :
    (test_connection 8081 (ConnectResult.connected ⟨"hello", none⟩ [])).loopEntered = false ∧
    countPingFailed (test_connection 8081 (ConnectResult.connected ⟨"hello", none⟩ [])).outputs = 0 ∧
    countPingPassed (test_connection 8081 (ConnectResult.connected ⟨"hello", none⟩ [])).outputs = 0 ∧
    (test_connection 8081 (ConnectResult.connected ⟨"hello", none⟩ [])).outputs =
      sessionPre 8081 ⟨"hello", none⟩ ++ [Output.errorCaught PyError.jsonDecodeError] :=
  ⟨rfl, rfl, rfl, rfl⟩

/-- C1 (amended): on a connected session the listener sends exactly one
message, the PING event with timestamp 123456789, and prints exactly one
Received line for the single blocking reply; when that reply decodes to a
JSON object, the liveness check is logged as passed exactly when its type
field equals PONG and as failed otherwise, the connection is not closed
on failure, and the receive loop is entered in both cases. (A first reply
that is not a JSON object instead ends the session via the outer error
handler, as c1_counterexample shows.) -/
theorem c1_ping_check_amended (port : Int) (text : String)
    (fields : List (String × Json)) (frames : List InFrame) :
    (test_connection port (ConnectResult.connected ⟨text, some (Json.obj fields)⟩ frames)).loopEntered = true ∧
    countSent (test_connection port (ConnectResult.connected ⟨text, some (Json.obj fields)⟩ frames)).outputs = 1 ∧
    Output.sent ping_event ∈ (test_connection port (ConnectResult.connected ⟨text, some (Json.obj fields)⟩ frames)).outputs ∧
    countReceived (test_connection port (ConnectResult.connected ⟨text, some (Json.obj fields)⟩ frames)).outputs = 1 ∧
    countPingPassed (test_connection port (ConnectResult.connected ⟨text, some (Json.obj fields)⟩ frames)).outputs =
      (if isPong fields then 1 else 0) ∧
    countPingFailed (test_connection port (ConnectResult.connected ⟨text, some (Json.obj fields)⟩ frames)).outputs =
      (if isPong fields then 0 else 1) := by
  have hs := countSent_receiveLoop frames
  have hr := countReceived_receiveLoop frames
  have hp := countPingPassed_receiveLoop frames
  have hf := countPingFailed_receiveLoop frames
  refine ⟨rfl, ?_, ?_, ?_, ?_, ?_⟩ <;>
    cases hv : isPong fields <;>
    cases ht : (receiveLoop frames).2 <;>
    simp [test_connection, sessionPre, countSent, countReceived, countPingPassed,
      countPingFailed, List.countP_append, List.countP_cons, hv, ht, hs, hr, hp, hf,
      isSentO, isReceivedO, isPingPassedO, isPingFailedO]

/-- Counterexample to C4 as stated: a 304 response is not a 2xx status,
yet raise_for_status does not raise for it, so get_screenshot returns the
raw body instead of logging an error and returning None. -/
theorem c4_counterexample :
    ((VisionClient.mk "b" "v" "t").get_screenshot (HttpOutcome.response 304 [7])).result = some [7] ∧
    ((VisionClient.mk "b" "v" "t").get_screenshot (HttpOutcome.response 304 [7])).errorLogged = false ∧
    ¬(200 ≤ 304 ∧ 304 < 300) :=
  ⟨rfl, rfl, by decide⟩

/-- C4 (amended): get_screenshot issues a GET to base url slash
screenshot with the bearer token and timeout 15, returns the raw
response bytes whenever the status is outside 400 to 599 (in particular
for every 2xx status), and on any transport error, timeout, or status in
400 to 599 logs the error and returns None; being total, it never lets
an exception propagate to the caller. -/
theorem c4_fetch_error_handling (c : VisionClient) (o : HttpOutcome) :
    (c.get_screenshot o).request = ⟨c.screenshot_base_url ++ "/screenshot", c.auth_token, 15⟩ ∧
    (∀ s b, o = HttpOutcome.response s b → ¬(400 ≤ s ∧ s < 600) →
      (c.get_screenshot o).result = some b ∧ (c.get_screenshot o).errorLogged = false) ∧
    (∀ s b, o = HttpOutcome.response s b → 400 ≤ s → s < 600 →
      (c.get_screenshot o).result = none ∧ (c.get_screenshot o).errorLogged = true) ∧
    (∀ m, o = HttpOutcome.transportError m →
      (c.get_screenshot o).result = none ∧ (c.get_screenshot o).errorLogged = true) ∧
    (∀ m, o = HttpOutcome.timeoutError m →
      (c.get_screenshot o).result = none ∧ (c.get_screenshot o).errorLogged = true) := by
  refine ⟨?_, ?_, ?_, ?_, ?_⟩
  · cases o <;>
      first
        | rfl
        | (simp only [VisionClient.get_screenshot]; split <;> rfl)
  · rintro s b rfl hs
    simp [VisionClient.get_screenshot, raisesForStatus, hs]
  · rintro s b rfl h4 h6
    simp [VisionClient.get_screenshot, raisesForStatus, h4, h6]
  · rintro m rfl
    exact ⟨rfl, rfl⟩
  · rintro m rfl
    exact ⟨rfl, rfl⟩

/-- Witness for c4: a 200 response with body bytes is returned as those
bytes, and a 404 response yields None with the error logged. -/
theorem c4_witness :
    ((VisionClient.mk "b" "v" "t").get_screenshot (HttpOutcome.response 200 [1, 2])).result = some [1, 2] ∧
    ((VisionClient.mk "b" "v" "t").get_screenshot (HttpOutcome.response 404 [9])).result = none ∧
    ((VisionClient.mk "b" "v" "t").get_screenshot (HttpOutcome.transportError "refused")).result = none :=
  ⟨((c4_fetch_error_handling (VisionClient.mk "b" "v" "t") (HttpOutcome.response 200 [1, 2])).2.1
      200 [1, 2] rfl (by decide)).1,
   ((c4_fetch_error_handling (VisionClient.mk "b" "v" "t") (HttpOutcome.response 404 [9])).2.2.1
      404 [9] rfl (by decide) (by decide)).1,
   ((c4_fetch_error_handling (VisionClient.mk "b" "v" "t") (HttpOutcome.transportError "refused")).2.2.2.1
      "refused" rfl).1⟩

/-- C5: an empty image byte sequence makes upload_image_for_explanation
return None immediately: no request value is even constructed, so no
network call is issued, for every question and whatever the network
would have answered. -/
theorem c5_empty_image_no_network_call (c : VisionClient) (question : String) (o : PostOutcome) :
    (c.upload_image_for_explanation [] question o).request = none ∧
    (c.upload_image_for_explanation [] question o).result = none := by
  constructor <;> rfl

/-- Counterexample to C9 as stated: a 300 response is not a 2xx status,
yet raise_for_status does not raise for it, so the uploader returns the
parsed JSON body instead of logging an error and returning an absent
result. -/
theorem c9_counterexample :
    ((VisionClient.mk "b" "v" "t").upload_image_for_explanation [1] "q"
        (PostOutcome.response 300 (some (Json.str "ok")))).result = some (Json.str "ok") ∧
    ((VisionClient.mk "b" "v" "t").upload_image_for_explanation [1] "q"
        (PostOutcome.response 300 (some (Json.str "ok")))).errorLogged = false ∧
    ¬(200 ≤ 300 ∧ 300 < 300) :=
  ⟨rfl, rfl, by decide⟩

/-- C9 (amended): for non-empty image bytes the uploader issues exactly
the multipart POST described by the claim (file part named file, filename
screenshot.jpg, content type image slash jpeg, the image bytes, a
question text field, the bearer token, timeout 30); when the status is
outside 400 to 599 and the body parses as JSON, the parsed body is
returned; on any transport error, timeout, status in 400 to 599, or a
success body that is not valid JSON (whose decode error is a
RequestException in requests 2.27 and later), the error is logged and
None is returned. -/
theorem c9_upload_request_and_result (c : VisionClient) (image : List Nat)
    (question : String) (o : PostOutcome) (him : image ≠ []) :
    (c.upload_image_for_explanation image question o).request =
      some ⟨c.vision_explain_url, c.auth_token, "file", "screenshot.jpg", "image/jpeg",
            image, question, 30⟩ ∧
    (∀ s j, o = PostOutcome.response s (some j) → ¬(400 ≤ s ∧ s < 600) →
      (c.upload_image_for_explanation image question o).result = some j ∧
      (c.upload_image_for_explanation image question o).errorLogged = false) ∧
    (∀ s body, o = PostOutcome.response s body → 400 ≤ s → s < 600 →
      (c.upload_image_for_explanation image question o).result = none ∧
      (c.upload_image_for_explanation image question o).errorLogged = true) ∧
    (∀ s, o = PostOutcome.response s none → ¬(400 ≤ s ∧ s < 600) →
      (c.upload_image_for_explanation image question o).result = none ∧
      (c.upload_image_for_explanation image question o).errorLogged = true) ∧
    (∀ m, o = PostOutcome.transportError m →
      (c.upload_image_for_explanation image question o).result = none ∧
      (c.upload_image_for_explanation image question o).errorLogged = true) ∧
    (∀ m, o = PostOutcome.timeoutError m →
      (c.upload_image_for_explanation image question o).result = none ∧
      (c.upload_image_for_explanation image question o).errorLogged = true) := by
  refine ⟨?_, ?_, ?_, ?_, ?_, ?_⟩
  · cases o with
    | response s b =>
      simp only [VisionClient.upload_image_for_explanation, if_neg him]
      split
      · rfl
      · split <;> rfl
    | transportError m => simp [VisionClient.upload_image_for_explanation, him]
    | timeoutError m => simp [VisionClient.upload_image_for_explanation, him]
  · rintro s j rfl hs
    simp [VisionClient.upload_image_for_explanation, him, raisesForStatus, hs]
  · rintro s body rfl h4 h6
    simp [VisionClient.upload_image_for_explanation, him, raisesForStatus, h4, h6]
  · rintro s rfl hs
    simp [VisionClient.upload_image_for_explanation, him, raisesForStatus, hs]
  · rintro m rfl
    simp [VisionClient.upload_image_for_explanation, him]
  · rintro m rfl
    simp [VisionClient.upload_image_for_explanation, him]

/-- Witness for c9: a one-byte image with a 200 JSON response yields the
parsed body, and the issued request carries all the multipart fields of
the claim. -/
theorem c9_witness :
    ((VisionClient.mk "b" "v" "t").upload_image_for_explanation [9] "q"
        (PostOutcome.response 200 (some Json.null))).request =
      some ⟨"v", "t", "file", "screenshot.jpg", "image/jpeg", [9], "q", 30⟩ ∧
    ((VisionClient.mk "b" "v" "t").upload_image_for_explanation [9] "q"
        (PostOutcome.response 200 (some Json.null))).result = some Json.null :=
  ⟨(c9_upload_request_and_result (VisionClient.mk "b" "v" "t") [9] "q"
      (PostOutcome.response 200 (some Json.null)) (by decide)).1,
   ((c9_upload_request_and_result (VisionClient.mk "b" "v" "t") [9] "q"
      (PostOutcome.response 200 (some Json.null)) (by decide)).2.1
      200 Json.null rfl (by decide)).1⟩

/-- C6: setup_adb_forward returns True exactly when the adb process ran
and exited with code 0; a missing utility, a non-zero exit and any other
invocation error all yield False (the function is total, so it never
raises); and with or without a port argument the listener main still
attempts the WebSocket connection, whatever setup_adb_forward returned. -/
theorem c6_adb_forward_result_and_optimistic_connect :
    (∀ o, setup_adb_forward o = true ↔ ∃ e, o = AdbOutcome.completed 0 e) ∧
    (∀ adb run, (Listener.main none adb run).adbResult = some (setup_adb_forward adb) ∧
       (Listener.main none adb run).connectionAttempted = true) ∧
    (∀ s p adb run, pythonInt? s = some p →
       (Listener.main (some s) adb run).adbResult = some (setup_adb_forward adb) ∧
       (Listener.main (some s) adb run).connectionAttempted = true) := by
  refine ⟨?_, ?_, ?_⟩
  · intro o
    cases o with
    | completed rc e =>
      simp only [setup_adb_forward, beq_iff_eq]
      constructor
      · rintro rfl; exact ⟨e, rfl⟩
      · rintro ⟨f, h⟩
        cases h
        rfl
    | fileNotFound =>
      simp only [setup_adb_forward]
      constructor
      · intro h; exact absurd h (by simp)
      · rintro ⟨f, h⟩; cases h
    | otherError m =>
      simp only [setup_adb_forward]
      constructor
      · intro h; exact absurd h (by simp)
      · rintro ⟨f, h⟩; cases h
  · intro adb run
    cases run <;> exact ⟨rfl, rfl⟩
  · intro s p adb run h
    cases run <;> simp [Listener.main, h]

/-- Witness for c6: a zero exit code yields True, a missing adb yields
False yet the connection is still attempted with the concrete port 9090. -/
theorem c6_witness :
    setup_adb_forward (AdbOutcome.completed 0 "") = true ∧
    (Listener.main (some "9090") AdbOutcome.fileNotFound RunOutcome.keyboardInterrupt).adbResult = some false ∧
    (Listener.main (some "9090") AdbOutcome.fileNotFound RunOutcome.keyboardInterrupt).connectionAttempted = true :=
  ⟨(c6_adb_forward_result_and_optimistic_connect.1 (AdbOutcome.completed 0 "")).mpr ⟨"", rfl⟩,
   (c6_adb_forward_result_and_optimistic_connect.2.2 "9090" 9090
      AdbOutcome.fileNotFound RunOutcome.keyboardInterrupt (by decide)).1,
   (c6_adb_forward_result_and_optimistic_connect.2.2 "9090" 9090
      AdbOutcome.fileNotFound RunOutcome.keyboardInterrupt (by decide)).2⟩

/-- C7: a port argument that Python int rejects makes main print the
usage text and exit with status 1, before setup_adb_forward is invoked
and before any WebSocket connection is attempted. -/
theorem c7_bad_port_usage_and_exit_one (s : String) (adb : AdbOutcome)
    (run : RunOutcome) (h : pythonInt? s = none) :
    Listener.main (some s) adb run =
      ⟨true, none, false, none, false, 1⟩ := by
  simp [Listener.main, h]

/-- Witness for c7: the non-numeric argument abc exits 1 with usage
printed, no adb invocation and no connection attempt. -/
theorem c7_witness :
    Listener.main (some "abc") AdbOutcome.fileNotFound RunOutcome.keyboardInterrupt =
      ⟨true, none, false, none, false, 1⟩ :=
  c7_bad_port_usage_and_exit_one "abc" AdbOutcome.fileNotFound
    RunOutcome.keyboardInterrupt (by decide)

/-- C8: the listener exits with status 1 exactly when a port argument is
present and Python int rejects it; in every other case, normal
completion, connection refusal and operator interrupt included, the exit
status is 0 (the exit code is always 0 or 1). -/
theorem c8_exit_codes (argv1 : Option String) (adb : AdbOutcome) (run : RunOutcome) :
    ((Listener.main argv1 adb run).exitCode = 1 ↔
      ∃ s, argv1 = some s ∧ pythonInt? s = none) ∧
    ((Listener.main argv1 adb run).exitCode = 0 ∨
      (Listener.main argv1 adb run).exitCode = 1) := by
  cases argv1 with
  | none =>
    cases run <;>
      exact ⟨⟨fun h => absurd h (by simp [Listener.main]),
              fun ⟨s, hs, _⟩ => by cases hs⟩, Or.inl rfl⟩
  | some s =>
    cases h : pythonInt? s with
    | none =>
      refine ⟨⟨fun _ => ⟨s, rfl, h⟩, fun _ => ?_⟩, ?_⟩
      · simp [Listener.main, h]
      · right; simp [Listener.main, h]
    | some p =>
      cases run <;>
        refine ⟨⟨fun hx => absurd hx (by simp [Listener.main, h]), ?_⟩,
                Or.inl (by simp [Listener.main, h])⟩ <;>
        rintro ⟨t, ht, hn⟩ <;>
        (cases ht; rw [h] at hn; cases hn)
